import Mathlib

/-!
Verification of the `RustMongoDBModelMethods` CRUD facade (`src/lib.rs`).

The development shallowly embeds the trait's operations.  The external
MongoDB client is an oracle (`StoreClient`): a record of response functions,
one per narrow store capability the facade consumes (`find`, `find_one`,
`insert_one`, `update_one`, `delete_one`).  The two compile-time identifier
strategies (`oid_as_id` and `uuid_as_id` cargo features) are embedded as two
`IdCodec` values.  Rust panics (from `.unwrap()`) are made explicit with the
`Outcome` wrapper, and `update_one` additionally returns the list of store
calls it issued, so that "no store call was made" is expressible.
-/

namespace RustMongo

/-- A 12-byte store-generated key (`bson::oid::ObjectId`); bytes modelled as
a list of naturals. -/
structure ObjectId where
  bytes : List Nat
deriving DecidableEq, Repr

/-- A 128-bit client-generated key (`uuid::Uuid`); its 16 bytes modelled as a
list of naturals.  A value of the Rust type always has exactly 16 bytes; the
embedding keeps that as a side condition where it matters. -/
structure Uuid where
  bytes : List Nat
deriving DecidableEq, Repr

/-- `bson::spec::BinarySubtype`: the `Generic` tag used by the facade, plus a
stand-in for every other subtype. -/
inductive BinarySubtype
  | generic
  | other (code : Nat)
deriving DecidableEq, Repr

/-- `bson::Binary`: a subtype tag and a byte payload. -/
structure Binary where
  subtype : BinarySubtype
  bytes : List Nat
deriving DecidableEq, Repr

/-- The fragment of `bson::Bson` the facade manipulates. -/
inductive Bson
  | objectId (oid : ObjectId)
  | binary (bin : Binary)
  | str (s : String)
  | int32 (n : Int)
  | null
deriving DecidableEq, Repr

/-- `bson::Document`: an ordered mapping field name → value (`bson::doc!`). -/
def BsonDoc := List (String × Bson)

instance : DecidableEq BsonDoc := by
  unfold BsonDoc; infer_instance

/-- Opaque cause of a store-client failure (`mongodb::error::Error`). -/
structure MongoError where
  tag : Nat
deriving DecidableEq, Repr

/-- Opaque cause of a BSON serialization failure (`bson::ser::Error`). -/
structure BsonSerError where
  tag : Nat
deriving DecidableEq, Repr

/-- The crate's error taxonomy (`enum Error` in `src/lib.rs`). -/
inductive Error
  | NotFound
  | DBError (cause : MongoError)
  | BSONSerError (cause : BsonSerError)
  | CreateFailed (msg : String)
  | UpdateFailed (msg : String)
  | DeleteFailed (msg : String)
deriving DecidableEq, Repr

/-- The result of a Rust computation that may panic (`.unwrap()` on `Err`). -/
inductive Outcome (α : Type)
  | ok (a : α)
  | panicked
deriving DecidableEq, Repr

/-- `uuid::Uuid::from_slice`: succeeds exactly on a 16-byte slice. -/
def uuidFromSlice (b : List Nat) : Except Unit Uuid :=
  if b.length = 16 then .ok ⟨b⟩ else .error ()

/-- `Result::unwrap`: panics on `Err`. -/
def unwrapExcept {ε α : Type} : Except ε α → Outcome α
  | .ok a => .ok a
  | .error _ => .panicked

/-- `bson::Bson::as_object_id`. -/
def asObjectId : Bson → Option ObjectId
  | .objectId o => some o
  | _ => none

/-- `id_fitter` under the `oid_as_id` feature: the identifier is used as-is
as a BSON value (`return id;`). -/
def id_fitter_oid (id : ObjectId) : Bson := .objectId id

/-- `id_fitter` under the `uuid_as_id` feature: wrap the UUID's bytes in
`bson::Binary` with the `Generic` subtype tag. -/
def id_fitter_uuid (id : Uuid) : Bson :=
  .binary { subtype := .generic, bytes := id.bytes }

/-- The inserted-id extraction in `create_one` under `oid_as_id`:
`insert_result.inserted_id.as_object_id()`.  Never panics. -/
def extract_inserted_oid (insertedId : Bson) : Outcome (Option ObjectId) :=
  .ok (asObjectId insertedId)

/-- The inserted-id extraction in `create_one` under `uuid_as_id`:
`match inserted_id { Binary(bin) => Some(Uuid::from_slice(&bin.bytes).unwrap()), _ => None }`. -/
def extract_inserted_uuid (insertedId : Bson) : Outcome (Option Uuid) :=
  match insertedId with
  | .binary bin =>
    match unwrapExcept (uuidFromSlice bin.bytes) with
    | .ok u => .ok (some u)
    | .panicked => .panicked
  | _ => .ok none

/-- One compile-time identifier strategy: the key encoder (`id_fitter`) and
the inserted-id decode step of `create_one`. -/
structure IdCodec (Id : Type) where
  fitter : Id → Bson
  extractInserted : Bson → Outcome (Option Id)

/-- The `oid_as_id` configuration. -/
def oidCodec : IdCodec ObjectId :=
  { fitter := id_fitter_oid, extractInserted := extract_inserted_oid }

/-- The `uuid_as_id` configuration. -/
def uuidCodec : IdCodec Uuid :=
  { fitter := id_fitter_uuid, extractInserted := extract_inserted_uuid }

/-- Acknowledgement of `Collection::update_one`. -/
structure UpdateResult where
  matched_count : Nat
  modified_count : Nat
deriving DecidableEq, Repr

/-- Acknowledgement of `Collection::delete_one`. -/
structure DeleteResult where
  deleted_count : Nat
deriving DecidableEq, Repr

/-- The external document-store client, as an oracle of responses for the
narrow capability set the facade consumes.  `findResp` yields the stream's
items in order, each possibly a mid-stream failure; `insertOneResp` yields
the acknowledged `inserted_id` token. -/
structure StoreClient (M : Type) where
  findResp : BsonDoc → Except MongoError (List (Except MongoError M))
  findOneResp : BsonDoc → Except MongoError (Option M)
  insertOneResp : M → Except MongoError Bson
  updateOneResp : BsonDoc → BsonDoc → Except MongoError UpdateResult
  deleteOneResp : BsonDoc → Except MongoError DeleteResult

/-- One store call issued by an operation (for effect accounting). -/
inductive StoreCall (M : Type)
  | findOne (filter : BsonDoc)
  | insertOne (doc : M)
  | updateOne (filter : BsonDoc) (update : BsonDoc)
  | deleteOne (filter : BsonDoc)

/-- Interpret a list of issued store calls as a state transformation. -/
def runCalls {M σ : Type} (apply : StoreCall M → σ → σ) : List (StoreCall M) → σ → σ
  | [], s => s
  | c :: cs, s => runCalls apply cs (apply c s)

/-- `futures::TryStreamExt::try_collect`: collect stream items in order,
stopping at the first failure. -/
def tryCollect {M : Type} : List (Except MongoError M) → Except MongoError (List M)
  | [] => .ok []
  | .ok m :: rest =>
    match tryCollect rest with
    | .ok ms => .ok (m :: ms)
    | .error e => .error e
  | .error e :: _ => .error e

/-- `find`: issue the query, then `try_collect` the cursor; both failure
points are wrapped in `Error::DBError`. -/
def find {M : Type} (store : StoreClient M) (filter : BsonDoc) : Except Error (List M) :=
  match store.findResp filter with
  | .error e => .error (.DBError e)
  | .ok stream =>
    match tryCollect stream with
    | .error e => .error (.DBError e)
    | .ok items => .ok items

/-- `find_one`: delegate to the store; a store failure becomes `DBError`. -/
def find_one {M : Type} (store : StoreClient M) (filter : BsonDoc) : Except Error (Option M) :=
  match store.findOneResp filter with
  | .error e => .error (.DBError e)
  | .ok item => .ok item

/-- `find_one_strict`: `find_one(filter)?.ok_or(Error::NotFound)?`. -/
def find_one_strict {M : Type} (store : StoreClient M) (filter : BsonDoc) : Except Error M :=
  match find_one store filter with
  | .error e => .error e
  | .ok (some item) => .ok item
  | .ok none => .error .NotFound

/-- `find_by_id`: `find_one` on the synthesized filter `{_id: id_fitter(id)}`. -/
def find_by_id {M Id : Type} (codec : IdCodec Id) (store : StoreClient M) (id : Id) :
    Except Error (Option M) :=
  find_one store [("_id", codec.fitter id)]

/-- `find_by_id_strict`: `find_one_strict` on `{_id: id_fitter(id)}`. -/
def find_by_id_strict {M Id : Type} (codec : IdCodec Id) (store : StoreClient M) (id : Id) :
    Except Error M :=
  find_one_strict store [("_id", codec.fitter id)]

/-- `create_one`: insert the instance, extract the acknowledged inserted-id
token under the active strategy (possibly panicking under `uuid_as_id`), then
either re-read strictly by the decoded id or fail with `CreateFailed`. -/
def create_one {M Id : Type} (codec : IdCodec Id) (store : StoreClient M) (data : M) :
    Outcome (Except Error M) :=
  match store.insertOneResp data with
  | .error e => .ok (.error (.DBError e))
  | .ok insertedId =>
    match codec.extractInserted insertedId with
    | .panicked => .panicked
    | .ok (some id) => .ok (find_by_id_strict codec store id)
    | .ok none => .ok (.error (.CreateFailed "No ID returned"))

/-- `update_one`: serialize the payload (`bson::to_bson`), issue the
`{"$set": payload}` field-merge update on the filter, require modified-count
exactly 1, then re-read with `find_one_strict` on the same filter.  The second
component records the store calls that were issued. -/
def update_one {M D : Type} (store : StoreClient M)
    (serialize : D → Except BsonSerError Bson) (filter : BsonDoc) (data : D) :
    Except Error M × List (StoreCall M) :=
  match serialize data with
  | .error e => (.error (.BSONSerError e), [])
  | .ok set =>
    match store.updateOneResp filter [("$set", set)] with
    | .error e => (.error (.DBError e), [.updateOne filter [("$set", set)]])
    | .ok res =>
      if res.modified_count ≠ 1 then
        (.error (.UpdateFailed "No record updated"), [.updateOne filter [("$set", set)]])
      else
        (find_one_strict store filter,
          [.updateOne filter [("$set", set)], .findOne filter])

/-- `update_by_id`: `update_one` on the synthesized filter `{_id: id_fitter(id)}`. -/
def update_by_id {M D Id : Type} (codec : IdCodec Id) (store : StoreClient M)
    (serialize : D → Except BsonSerError Bson) (id : Id) (data : D) :
    Except Error M × List (StoreCall M) :=
  update_one store serialize [("_id", codec.fitter id)] data

/-- `delete_one`: issue the single-document delete; require deleted-count
exactly 1, else `DeleteFailed`. -/
def delete_one {M : Type} (store : StoreClient M) (filter : BsonDoc) : Except Error Unit :=
  match store.deleteOneResp filter with
  | .error e => .error (.DBError e)
  | .ok res =>
    if res.deleted_count ≠ 1 then .error (.DeleteFailed "No record deleted")
    else .ok ()

/-- `delete_by_id`: `delete_one` on the synthesized filter `{_id: id_fitter(id)}`. -/
def delete_by_id {M Id : Type} (codec : IdCodec Id) (store : StoreClient M) (id : Id) :
    Except Error Unit :=
  delete_one store [("_id", codec.fitter id)]

/-! ### Concrete fixtures (model type `Nat`, constant store oracles) -/

/-- A concrete 12-byte ObjectId. -/
def oid0 : ObjectId := ⟨[0, 1, 2, 3, 4, 5, 6, 7, 8, 9, 10, 11]⟩

/-- A concrete 16-byte UUID. -/
def uuid0 : Uuid := ⟨[0, 1, 2, 3, 4, 5, 6, 7, 8, 9, 10, 11, 12, 13, 14, 15]⟩

/-- A concrete filter. -/
def filter0 : BsonDoc := [("name", Bson.str "Ann")]

/-- A store whose every response succeeds; inserts echo `oid0`, lookups find
the document `7`. -/
def baseStore : StoreClient Nat where
  findResp _ := .ok []
  findOneResp _ := .ok (some 7)
  insertOneResp _ := .ok (.objectId oid0)
  updateOneResp _ _ := .ok ⟨1, 1⟩
  deleteOneResp _ := .ok ⟨1⟩

/-- A store whose insert echoes `uuid0` in its Binary encoding. -/
def storeUuidOk : StoreClient Nat :=
  { baseStore with insertOneResp := fun _ => .ok (.binary ⟨.generic, uuid0.bytes⟩) }

/-- A store whose insert echoes a malformed 3-byte Binary key. -/
def storeBadBinary : StoreClient Nat :=
  { baseStore with insertOneResp := fun _ => .ok (.binary ⟨.generic, [0, 0, 0]⟩) }

/-- A store in which no document matches any filter. -/
def storeEmpty : StoreClient Nat :=
  { baseStore with findOneResp := fun _ => .ok none }

/-- A store whose delete acknowledges zero deleted documents. -/
def storeDeleteMiss : StoreClient Nat :=
  { baseStore with deleteOneResp := fun _ => .ok ⟨0⟩ }

/-- A store whose update acknowledges zero modified documents. -/
def storeUpdateMiss : StoreClient Nat :=
  { baseStore with updateOneResp := fun _ _ => .ok ⟨1, 0⟩ }

/-- A store streaming the two documents `1, 2`. -/
def storeStream : StoreClient Nat :=
  { baseStore with findResp := fun _ => .ok [.ok 1, .ok 2] }

/-- A store whose stream fails after its first document. -/
def storeStreamErr : StoreClient Nat :=
  { baseStore with findResp := fun _ => .ok [.ok 1, .error ⟨5⟩] }

/-- A payload serializer that always succeeds. -/
def serOk : Nat → Except BsonSerError Bson := fun n => .ok (.int32 n)

/-- A payload serializer that always fails. -/
def serBad : Nat → Except BsonSerError Bson := fun _ => .error ⟨3⟩

/-! ### Helper lemmas -/

/-- `find_one_strict` only ever fails with `NotFound` or `DBError`, never with
`UpdateFailed`. -/
theorem find_one_strict_ne_updatefailed {M : Type} (store : StoreClient M)
    (filter : BsonDoc) (msg : String) :
    find_one_strict store filter ≠ .error (.UpdateFailed msg) := by
  rcases hfo : store.findOneResp filter with e | o
  · simp [find_one_strict, find_one, hfo]
  · cases o <;> simp [find_one_strict, find_one, hfo]

/-- `try_collect` of an error-free stream is the stream's documents in order. -/
theorem tryCollect_map_ok {M : Type} (docs : List M) :
    tryCollect (docs.map Except.ok) = .ok docs := by
  induction docs with
  | nil => rfl
  | cons d ds ih => simp [tryCollect, ih]

/-- `try_collect` of a stream failing after some documents is that failure. -/
theorem tryCollect_first_error {M : Type} (docs : List M) (e : MongoError)
    (rest : List (Except MongoError M)) :
    tryCollect (docs.map Except.ok ++ .error e :: rest) = .error e := by
  induction docs with
  | nil => rfl
  | cons d ds ih => simp [tryCollect, ih]

/-! ### Claim theorems -/

/-- C1 (amended): `create_one` first inserts the instance, then decodes the
acknowledged inserted-key token under the active strategy.  When a key is
decoded it returns exactly the strict find-by-id re-read of the decoded
identifier; when no key is present (a non-ObjectId token under `oid_as_id`,
a non-Binary token under `uuid_as_id`) it fails with `CreateFailed`; but
under `uuid_as_id` a Binary token whose byte length is not 16 makes the
decode step panic instead of failing with `CreateFailed`. -/
theorem create_one_behavior_by_strategy {M : Type} (store : StoreClient M) (data : M) :
    (∀ oid, store.insertOneResp data = .ok (.objectId oid) →
      create_one oidCodec store data = .ok (find_by_id_strict oidCodec store oid)) ∧
    (∀ b, store.insertOneResp data = .ok b → asObjectId b = none →
      create_one oidCodec store data = .ok (.error (.CreateFailed "No ID returned"))) ∧
    (∀ bin, store.insertOneResp data = .ok (.binary bin) → bin.bytes.length = 16 →
      create_one uuidCodec store data = .ok (find_by_id_strict uuidCodec store ⟨bin.bytes⟩)) ∧
    (∀ bin, store.insertOneResp data = .ok (.binary bin) → bin.bytes.length ≠ 16 →
      create_one uuidCodec store data = .panicked) ∧
    (∀ b, store.insertOneResp data = .ok b → (∀ bin, b ≠ .binary bin) →
      create_one uuidCodec store data = .ok (.error (.CreateFailed "No ID returned"))) := by
  refine ⟨?_, ?_, ?_, ?_, ?_⟩
  · intro oid h
    simp [create_one, h, oidCodec, extract_inserted_oid, asObjectId]
  · intro b h hb
    simp [create_one, h, oidCodec, extract_inserted_oid, hb]
  · intro bin h hlen
    simp [create_one, h, uuidCodec, extract_inserted_uuid, uuidFromSlice, hlen, unwrapExcept]
  · intro bin h hlen
    simp [create_one, h, uuidCodec, extract_inserted_uuid, uuidFromSlice, hlen, unwrapExcept]
  · intro b h hnb
    cases b with
    | objectId o => simp [create_one, h, uuidCodec, extract_inserted_uuid]
    | binary bin => exact absurd rfl (hnb bin)
    | str s => simp [create_one, h, uuidCodec, extract_inserted_uuid]
    | int32 n => simp [create_one, h, uuidCodec, extract_inserted_uuid]
    | null => simp [create_one, h, uuidCodec, extract_inserted_uuid]

/-- Witness for C1: on concrete stores, both strategies return the strict
re-read of the echoed key. -/
theorem create_one_behavior_by_strategy_witness :
    create_one oidCodec baseStore 0 = .ok (find_by_id_strict oidCodec baseStore oid0) ∧
    create_one uuidCodec storeUuidOk 0 = .ok (find_by_id_strict uuidCodec storeUuidOk uuid0) :=
  ⟨(create_one_behavior_by_strategy baseStore 0).1 oid0 rfl,
   (create_one_behavior_by_strategy storeUuidOk 0).2.2.1 ⟨.generic, uuid0.bytes⟩ rfl (by decide)⟩

/-- Counterexample to C1 as stated: under `uuid_as_id`, when the store echoes
a 3-byte Binary inserted key the decode step fails, yet `create_one` panics
rather than failing with `CreateFailed`. -/
theorem create_one_uuid_short_binary_not_createfailed :
    create_one uuidCodec storeBadBinary 0 = .panicked ∧
    ∀ msg, create_one uuidCodec storeBadBinary 0 ≠ .ok (.error (.CreateFailed msg)) := by
  constructor
  · rfl
  · intro msg h
    have hp : create_one uuidCodec storeBadBinary 0 = Outcome.panicked := rfl
    rw [hp] at h
    exact Outcome.noConfusion h

/-- C2: round-trip of the active Identifier Strategy: encoding an identifier
with `id_fitter` and then running `create_one`'s decode step on the store's
echo of that encoded key recovers the identifier, under both the `oid_as_id`
and the `uuid_as_id` (for every valid 16-byte UUID) configurations. -/
theorem id_strategy_roundtrip :
    (∀ id : ObjectId, oidCodec.extractInserted (oidCodec.fitter id) = .ok (some id)) ∧
    (∀ id : Uuid, id.bytes.length = 16 →
      uuidCodec.extractInserted (uuidCodec.fitter id) = .ok (some id)) := by
  constructor
  · intro id; rfl
  · intro id h
    simp [uuidCodec, id_fitter_uuid, extract_inserted_uuid, uuidFromSlice, h, unwrapExcept]

/-- Witness for C2 at concrete keys of both strategies. -/
theorem id_strategy_roundtrip_witness :
    oidCodec.extractInserted (oidCodec.fitter oid0) = .ok (some oid0) ∧
    uuidCodec.extractInserted (uuidCodec.fitter uuid0) = .ok (some uuid0) :=
  ⟨id_strategy_roundtrip.1 oid0, id_strategy_roundtrip.2 uuid0 (by decide)⟩

/-- C3 (code bug): contrary to the claim, the decode step of `create_one`
under `uuid_as_id` panics (via `Uuid::from_slice(..).unwrap()`) when the
store echoes a Binary inserted key whose byte length is not 16, instead of
returning `CreateFailed`. -/
theorem create_one_uuid_decode_panics :
    extract_inserted_uuid (.binary ⟨.generic, [0, 0, 0]⟩) = .panicked ∧
    create_one uuidCodec storeBadBinary 0 = .panicked :=
  ⟨rfl, rfl⟩

/-- C4: `update_one` fails with `UpdateFailed` exactly when the store
acknowledged the field-merge update with a modified-count other than 1; the
acknowledgement's matched-count is never consulted, so "matched nothing" and
"matched but unchanged" zero-modified acknowledgements fail alike. -/
theorem update_one_updatefailed_iff_modified_count {M D : Type} (store : StoreClient M)
    (serialize : D → Except BsonSerError Bson) (filter : BsonDoc) (data : D) :
    (∃ msg, (update_one store serialize filter data).1 = .error (.UpdateFailed msg)) ↔
    (∃ set res, serialize data = .ok set ∧
      store.updateOneResp filter [("$set", set)] = .ok res ∧ res.modified_count ≠ 1) := by
  rcases hser : serialize data with e | set
  · simp only [update_one, hser]
    constructor
    · rintro ⟨msg, h⟩
      exact absurd h (by simp)
    · rintro ⟨set, res, hs, -, -⟩
      exact Except.noConfusion hs
  · rcases hup : store.updateOneResp filter [("$set", set)] with e | res
    · simp only [update_one, hser, hup]
      constructor
      · rintro ⟨msg, h⟩
        exact absurd h (by simp)
      · rintro ⟨set2, res, hs, hu, -⟩
        injection hs with h1
        rw [← h1, hup] at hu
        exact Except.noConfusion hu
    · by_cases hmc : res.modified_count = 1
      · simp only [update_one, hser, hup, hmc]
        constructor
        · rintro ⟨msg, h⟩
          simp at h
          exact absurd h (find_one_strict_ne_updatefailed store filter msg)
        · rintro ⟨set2, res2, hs, hu, hm⟩
          injection hs with h1
          rw [← h1, hup] at hu
          injection hu with h2
          rw [← h2] at hm
          exact absurd hmc hm
      · simp only [update_one, hser, hup, if_pos hmc]
        constructor
        · intro _
          exact ⟨set, res, rfl, hup, hmc⟩
        · intro _
          exact ⟨"No record updated", rfl⟩

/-- C5: when the store acknowledges the update with modified-count exactly 1,
`update_one` returns the result of the strict re-read on the same filter,
and in particular propagates any failure of that re-read. -/
theorem update_one_success_returns_reread {M D : Type} (store : StoreClient M)
    (serialize : D → Except BsonSerError Bson) (filter : BsonDoc) (data : D)
    (set : Bson) (res : UpdateResult)
    (hs : serialize data = .ok set)
    (hu : store.updateOneResp filter [("$set", set)] = .ok res)
    (hm : res.modified_count = 1) :
    (update_one store serialize filter data).1 = find_one_strict store filter ∧
    (∀ e, find_one_strict store filter = .error e →
      (update_one store serialize filter data).1 = .error e) := by
  have h1 : (update_one store serialize filter data).1 = find_one_strict store filter := by
    simp [update_one, hs, hu, hm]
  exact ⟨h1, fun e he => h1.trans he⟩

/-- Witness for C5: a successful concrete update returns the re-read,
and a re-read failing with `NotFound` is propagated. -/
theorem update_one_success_returns_reread_witness :
    ((update_one baseStore serOk filter0 5).1 = find_one_strict baseStore filter0 ∧
      (∀ e, find_one_strict baseStore filter0 = .error e →
        (update_one baseStore serOk filter0 5).1 = .error e)) ∧
    (update_one storeEmpty serOk filter0 5).1 = .error .NotFound :=
  ⟨update_one_success_returns_reread baseStore serOk filter0 5 (.int32 5) ⟨1, 1⟩ rfl rfl rfl,
   (update_one_success_returns_reread storeEmpty serOk filter0 5 (.int32 5) ⟨1, 1⟩
      rfl rfl rfl).2 .NotFound rfl⟩

/-- C6: `delete_one` succeeds exactly when the store's acknowledgement
reports deleted-count 1, fails with `DeleteFailed` on any other acknowledged
count, never fails with `NotFound`, and `delete_by_id` delegates to it on
the synthesized id filter. -/
theorem delete_one_deleted_count_spec {M Id : Type} (codec : IdCodec Id)
    (store : StoreClient M) (filter : BsonDoc) (id : Id) :
    (∀ res, store.deleteOneResp filter = .ok res →
      (delete_one store filter = .ok () ↔ res.deleted_count = 1)) ∧
    (∀ res, store.deleteOneResp filter = .ok res → res.deleted_count ≠ 1 →
      delete_one store filter = .error (.DeleteFailed "No record deleted")) ∧
    delete_by_id codec store id = delete_one store [("_id", codec.fitter id)] ∧
    delete_one store filter ≠ .error .NotFound := by
  refine ⟨?_, ?_, rfl, ?_⟩
  · intro res h
    by_cases h1 : res.deleted_count = 1 <;> simp [delete_one, h, h1]
  · intro res h h1
    simp [delete_one, h, h1]
  · rcases hd : store.deleteOneResp filter with e | res
    · simp [delete_one, hd]
    · by_cases h1 : res.deleted_count = 1 <;> simp [delete_one, hd, h1]

/-- Witness for C6: deleting with a store acknowledging zero deletions
yields `DeleteFailed`, an acknowledged count of 1 yields success, and the
delegation equation holds at a concrete id. -/
theorem delete_one_deleted_count_spec_witness :
    delete_one storeDeleteMiss filter0 = .error (.DeleteFailed "No record deleted") ∧
    (delete_one baseStore filter0 = .ok () ↔ (1 : Nat) = 1) ∧
    delete_by_id oidCodec storeDeleteMiss oid0 =
      delete_one storeDeleteMiss [("_id", oidCodec.fitter oid0)] :=
  ⟨(delete_one_deleted_count_spec oidCodec storeDeleteMiss filter0 oid0).2.1 ⟨0⟩ rfl
      (by decide),
   (delete_one_deleted_count_spec oidCodec baseStore filter0 oid0).1 ⟨1⟩ rfl,
   (delete_one_deleted_count_spec oidCodec storeDeleteMiss filter0 oid0).2.2.1⟩

/-- C7: `find_one_strict` fails with `NotFound` exactly when the store's
`find_one` reports no match; when the store reports a first match it is
returned unchanged. -/
theorem find_one_strict_notfound_spec {M : Type} (store : StoreClient M) (filter : BsonDoc) :
    (find_one_strict store filter = .error .NotFound ↔
      store.findOneResp filter = .ok none) ∧
    (∀ m, store.findOneResp filter = .ok (some m) →
      find_one_strict store filter = .ok m) := by
  constructor
  · rcases hfo : store.findOneResp filter with e | o
    · simp [find_one_strict, find_one, hfo]
    · cases o <;> simp [find_one_strict, find_one, hfo]
  · intro m h
    simp [find_one_strict, find_one, h]

/-- Witness for C7: on a store with no match the strict read is `NotFound`;
on a store whose first match is `7` it returns `7`. -/
theorem find_one_strict_notfound_spec_witness :
    find_one_strict storeEmpty filter0 = .error .NotFound ∧
    find_one_strict baseStore filter0 = .ok 7 :=
  ⟨(find_one_strict_notfound_spec storeEmpty filter0).1.mpr rfl,
   (find_one_strict_notfound_spec baseStore filter0).2 7 rfl⟩

/-- Witness for C4: a store acknowledging matched-count 1 but modified-count
0 makes `update_one` fail with `UpdateFailed`. -/
theorem update_one_updatefailed_iff_witness :
    ∃ msg, (update_one storeUpdateMiss serOk filter0 5).1 =
      .error (.UpdateFailed msg) :=
  (update_one_updatefailed_iff_modified_count storeUpdateMiss serOk filter0 5).mpr
    ⟨.int32 5, ⟨1, 0⟩, rfl, rfl, by decide⟩

/-- C8: `find_by_id` and `find_by_id_strict` query the store through
`find_one` / `find_one_strict` with exactly the synthesized filter
`{_id: id_fitter(id)}`; under `oid_as_id` the fitter returns the identifier
unchanged as a BSON value, and under `uuid_as_id` it wraps the UUID's bytes
in the store's Binary type with the `Generic` subtype tag. -/
theorem find_by_id_synthesized_filter {M : Type} (store : StoreClient M)
    (oid : ObjectId) (uid : Uuid) :
    find_by_id oidCodec store oid = find_one store [("_id", id_fitter_oid oid)] ∧
    find_by_id_strict oidCodec store oid =
      find_one_strict store [("_id", id_fitter_oid oid)] ∧
    find_by_id uuidCodec store uid = find_one store [("_id", id_fitter_uuid uid)] ∧
    find_by_id_strict uuidCodec store uid =
      find_one_strict store [("_id", id_fitter_uuid uid)] ∧
    id_fitter_oid oid = .objectId oid ∧
    id_fitter_uuid uid = .binary { subtype := .generic, bytes := uid.bytes } :=
  ⟨rfl, rfl, rfl, rfl, rfl, rfl⟩

/-- C9: `find` collects the store's stream for the filter into an in-memory
ordered list; an empty stream yields `ok []`, a failure issuing the query or
mid-stream yields `DBError` carrying the underlying cause. -/
theorem find_stream_collection_spec {M : Type} (store : StoreClient M) (filter : BsonDoc) :
    (∀ docs : List M, store.findResp filter = .ok (docs.map Except.ok) →
      find store filter = .ok docs) ∧
    (store.findResp filter = .ok [] → find store filter = .ok []) ∧
    (∀ e, store.findResp filter = .error e → find store filter = .error (.DBError e)) ∧
    (∀ (docs : List M) (e : MongoError) rest,
      store.findResp filter = .ok (docs.map Except.ok ++ .error e :: rest) →
      find store filter = .error (.DBError e)) := by
  refine ⟨?_, ?_, ?_, ?_⟩
  · intro docs h
    simp [find, h, tryCollect_map_ok]
  · intro h
    simp [find, h, tryCollect]
  · intro e h
    simp [find, h]
  · intro docs e rest h
    simp [find, h, tryCollect_first_error]

/-- Witness for C9: a two-document stream is collected in order, an empty
stream is an empty-list success, and a stream failing after one document
yields `DBError` with that failure's cause. -/
theorem find_stream_collection_spec_witness :
    find storeStream filter0 = .ok [1, 2] ∧
    find baseStore filter0 = .ok [] ∧
    find storeStreamErr filter0 = .error (.DBError ⟨5⟩) :=
  ⟨(find_stream_collection_spec storeStream filter0).1 [1, 2] rfl,
   (find_stream_collection_spec baseStore filter0).2.1 rfl,
   (find_stream_collection_spec storeStreamErr filter0).2.2.2 [1] ⟨5⟩ [] rfl⟩

/-- C10: `update_one` serializes the payload before any store call; when
serialization fails it returns `BSONSerError`, issues no store call, and
thus leaves any store state unchanged. -/
theorem update_one_ser_error_no_store_call {M D : Type} (store : StoreClient M)
    (serialize : D → Except BsonSerError Bson) (filter : BsonDoc) (data : D)
    (e : BsonSerError) (h : serialize data = .error e) :
    (update_one store serialize filter data).1 = .error (.BSONSerError e) ∧
    (update_one store serialize filter data).2 = [] ∧
    ∀ {σ : Type} (apply : StoreCall M → σ → σ) (s : σ),
      runCalls apply (update_one store serialize filter data).2 s = s := by
  refine ⟨?_, ?_, ?_⟩ <;> simp [update_one, h, runCalls]

/-- Witness for C10: a concretely failing serializer yields `BSONSerError`,
an empty call trace, and an unchanged interpreted state. -/
theorem update_one_ser_error_no_store_call_witness :
    (update_one baseStore serBad filter0 5).1 = .error (.BSONSerError ⟨3⟩) ∧
    (update_one baseStore serBad filter0 5).2 = [] ∧
    runCalls (fun _ s => s + 1) (update_one baseStore serBad filter0 5).2 0 = 0 :=
  ⟨(update_one_ser_error_no_store_call baseStore serBad filter0 5 ⟨3⟩ rfl).1,
   (update_one_ser_error_no_store_call baseStore serBad filter0 5 ⟨3⟩ rfl).2.1,
   (update_one_ser_error_no_store_call baseStore serBad filter0 5 ⟨3⟩ rfl).2.2
     (fun _ s => s + 1) 0⟩

end RustMongo
